import Mathlib

/-!
Shallow embedding of the fer_net coordinator (src/main.rs): the node
Registration Store, the Active Registry, the registration HTTP endpoint and
the per-connection WebSocket session actor `ProxyWsSession` with its
lifecycle callbacks (`started`, `stopped`) and message handler (`handle`).

Modelling conventions:
- `Uuid` is the 128-bit value of a UUID, modelled as `Nat`; its hyphenated
  lowercase-hex textual form (what Rust's `uuid::Uuid::to_string` produces)
  is `uuidToString`, which reduces its argument modulo `2 ^ 128`.
- The two shared `Arc<Mutex<HashMap<..>>>` registries are modelled as
  association lists threaded explicitly through each operation; the mutex
  serialises every access in the source, so each Rust critical section
  becomes one atomic function application here.
- WebSocket context effects (`ctx.text`, `ctx.close`, `ctx.stop`,
  `ctx.pong`) are recorded as an ordered output list `List CtxEffect`.
- JSON parsing of the first text frame (`serde_json::from_str::<AuthMessage>`)
  is abstracted by the tagged payload `TextPayload`: a frame either parses as
  an `AuthMessage` or it does not.
-/

abbrev Uuid := Nat

/-- Lowercase hex digit, as produced by the uuid crate's formatter. -/
def hexChar (n : Nat) : Char :=
  if n < 10 then Char.ofNat (48 + n) else Char.ofNat (87 + n)

/-- Fixed-width big-endian hex rendering of `n` with `w` digits. -/
def toHex : Nat → Nat → List Char
  | 0, _ => []
  | w + 1, n => toHex w (n / 16) ++ [hexChar (n % 16)]

/-- Hyphenated 8-4-4-4-12 textual form of a UUID value. -/
def uuidToString (u : Uuid) : String :=
  let n := u % 2 ^ 128
  ⟨toHex 8 (n / 2 ^ 96) ++ '-' ::
    (toHex 4 (n / 2 ^ 80 % 2 ^ 16) ++ '-' ::
      (toHex 4 (n / 2 ^ 64 % 2 ^ 16) ++ '-' ::
        (toHex 4 (n / 2 ^ 48 % 2 ^ 16) ++ '-' :: toHex 12 (n % 2 ^ 48))))⟩

/-- Rust byte slicing `&s[..k]`: defined only when `k` is in bounds
(all characters here are ASCII, so byte and char indices coincide). -/
def sliceTo (s : String) (k : Nat) : Option String :=
  if k ≤ s.length then some ⟨s.data.take k⟩ else none

/-- Display name built in `started`: `format!("node-{}", &id.to_string()[..8])`. -/
def nodeName (id : Uuid) : String :=
  "node-" ++ (sliceTo (uuidToString id) 8).getD ""

structure RegisteredNode where
  id : Uuid
  password : String
  mc_id : String
deriving DecidableEq, Repr

structure ProxyNode where
  id : Uuid
  name : String
  ip : String
  port : Nat
  active : Bool
  mc_id : String
deriving DecidableEq, Repr

/-- `HashMap<Uuid, _>` modelled as an association list with unique keys. -/
abbrev RegisteredNodes := List (Uuid × RegisteredNode)

abbrev ActiveNodes := List (Uuid × ProxyNode)

def lookupA {α : Type} : List (Uuid × α) → Uuid → Option α
  | [], _ => none
  | p :: rest, k => if p.1 = k then some p.2 else lookupA rest k

def removeA {α : Type} : List (Uuid × α) → Uuid → List (Uuid × α)
  | [], _ => []
  | p :: rest, k => if p.1 = k then removeA rest k else p :: removeA rest k

/-- `HashMap::insert`: replaces any existing binding of the key. -/
def insertA {α : Type} (l : List (Uuid × α)) (k : Uuid) (v : α) :
    List (Uuid × α) :=
  (k, v) :: removeA l k

structure RegisterRequest where
  id : Uuid
  password : String
  mc_id : String
deriving DecidableEq, Repr

inductive HttpResp
  | ok (body : String)
  | badRequest (body : String)
deriving DecidableEq, Repr

/-- The `POST /register` handler: rejects an already-registered id,
otherwise inserts the new `RegisteredNode`. -/
def register (reg : RegisterRequest) (data : RegisteredNodes) :
    HttpResp × RegisteredNodes :=
  if (lookupA data reg.id).isSome then
    (.badRequest "ID already registered", data)
  else
    (.ok "Registered successfully",
      insertA data reg.id ⟨reg.id, reg.password, reg.mc_id⟩)

/-- Run a sequence of registration calls, collecting the responses. -/
def processRegs : List RegisterRequest → RegisteredNodes →
    List HttpResp × RegisteredNodes
  | [], store => ([], store)
  | r :: rs, store =>
    match register r store with
    | (resp, store₁) =>
      match processRegs rs store₁ with
      | (resps, store₂) => (resp :: resps, store₂)

structure AuthMessage where
  id : Uuid
  password : String
deriving DecidableEq, Repr

/-- Abstracted text frame: either it deserialises as an `AuthMessage`
or it is some other (non-auth) text. -/
inductive TextPayload
  | authMsg (id : Uuid) (password : String)
  | other (raw : String)
deriving DecidableEq, Repr

def parseAuthMessage : TextPayload → Option AuthMessage
  | .authMsg i p => some ⟨i, p⟩
  | .other _ => none

inductive WsMessage
  | text (t : TextPayload)
  | ping (payload : String)
  | pong (payload : String)
  | binary (payload : String)
  | close (reason : Option String)
  | protocolErr
deriving DecidableEq, Repr

inductive CtxEffect
  | text (s : String)
  | close (reason : Option String)
  | stop
  | pong (payload : String)
deriving DecidableEq, Repr

/-- Per-connection actor state; the shared registries (`nodes`, `reg_nodes`
fields in the source) are passed explicitly to each callback. -/
structure ProxyWsSession where
  id : Uuid
  authed : Bool
  mc_id : String
deriving DecidableEq, Repr

/-- `Actor::started`: an unauthenticated session is told
"Authentication required" and closed; an authenticated one registers its
`ProxyNode` (ip "unknown", port 0, active true) in the Active Registry. -/
def ProxyWsSession.started (self : ProxyWsSession) (nodes : ActiveNodes) :
    ProxyWsSession × ActiveNodes × List CtxEffect :=
  if self.authed = false then
    (self, nodes, [.text "Authentication required", .close none, .stop])
  else
    let proxy_node : ProxyNode :=
      { id := self.id, name := nodeName self.id, ip := "unknown", port := 0,
        active := true, mc_id := self.mc_id }
    (self, insertA nodes self.id proxy_node, [])

/-- `Actor::stopped`: remove this session's entry from the Active Registry. -/
def ProxyWsSession.stopped (self : ProxyWsSession) (nodes : ActiveNodes) :
    ActiveNodes :=
  removeA nodes self.id

/-- `StreamHandler::handle`: authentication on the first text frame, ping
echo, close echo; text from an authenticated client falls through to the
empty "process other messages" block. Returns the updated session, both
registries and the ordered context effects. -/
def ProxyWsSession.handle (self : ProxyWsSession)
    (reg_nodes : RegisteredNodes) (nodes : ActiveNodes) (msg : WsMessage) :
    ProxyWsSession × RegisteredNodes × ActiveNodes × List CtxEffect :=
  match msg with
  | .text t =>
    if self.authed = false then
      match parseAuthMessage t with
      | some auth =>
        match lookupA reg_nodes auth.id with
        | some reg_node =>
          if reg_node.password = auth.password then
            let self' : ProxyWsSession :=
              { id := auth.id, authed := true, mc_id := reg_node.mc_id }
            (self', reg_nodes, nodes, [.text "Authenticated"])
          else
            (self, reg_nodes, nodes,
             [.text "Authentication failed", .close none, .stop])
        | none =>
          (self, reg_nodes, nodes,
           [.text "Authentication failed", .close none, .stop])
      | none =>
        (self, reg_nodes, nodes,
         [.text "Invalid authentication message", .close none, .stop])
    else
      (self, reg_nodes, nodes, [])
  | .ping p => (self, reg_nodes, nodes, [.pong p])
  | .pong _ => (self, reg_nodes, nodes, [])
  | .binary _ => (self, reg_nodes, nodes, [])
  | .close r => (self, reg_nodes, nodes, [.close r, .stop])
  | .protocolErr => (self, reg_nodes, nodes, [])

/-- The `GET /nodes` handler: snapshot of the Active Registry's values. -/
def nodesList (data : ActiveNodes) : List ProxyNode :=
  data.map (·.2)

/-- The session built by the `GET /ws/` handler `ws_index`: a fresh
temporary id, `authed: false`, empty `mc_id`. -/
def wsIndexSession (tempId : Uuid) : ProxyWsSession :=
  { id := tempId, authed := false, mc_id := "" }

/-!
Whole-system model: the process state (both registries plus every session
actor created so far) and an event-step semantics covering the HTTP
registration endpoint, WebSocket connection establishment (`ws_index`
followed by the actor's `started` callback), message delivery to a live
actor, and transport-level disconnect. Actix runs the `stopped` callback
whenever the actor stops, including after `ctx.stop()` inside `started` or
`handle`; the step function mirrors that.
-/

structure SessionRec where
  sess : ProxyWsSession
  alive : Bool
deriving DecidableEq, Repr

structure SysState where
  regStore : RegisteredNodes
  active : ActiveNodes
  sessions : List SessionRec
deriving DecidableEq, Repr

inductive Event
  | registerReq (r : RegisterRequest)
  | wsConnect (tempId : Uuid)
  | wsMessage (i : Nat) (m : WsMessage)
  | wsDisconnect (i : Nat)
deriving DecidableEq, Repr

def fetch {α : Type} : List α → Nat → Option α
  | [], _ => none
  | a :: _, 0 => some a
  | _ :: l, n + 1 => fetch l n

def setAt {α : Type} : List α → Nat → α → List α
  | [], _, _ => []
  | _ :: l, 0, v => v :: l
  | a :: l, n + 1, v => a :: setAt l n v

def hasStop (effs : List CtxEffect) : Bool :=
  effs.any fun e => match e with
    | .stop => true
    | _ => false

def step (s : SysState) : Event → SysState
  | .registerReq r =>
    { s with regStore := (register r s.regStore).2 }
  | .wsConnect tempId =>
    let sess := wsIndexSession tempId
    match sess.started s.active with
    | (sess', active', effs) =>
      if hasStop effs then
        { s with active := sess'.stopped active',
                 sessions := s.sessions ++ [⟨sess', false⟩] }
      else
        { s with active := active',
                 sessions := s.sessions ++ [⟨sess', true⟩] }
  | .wsMessage i m =>
    match fetch s.sessions i with
    | some rec =>
      if rec.alive then
        match rec.sess.handle s.regStore s.active m with
        | (sess', reg', active', effs) =>
          if hasStop effs then
            { regStore := reg', active := sess'.stopped active',
              sessions := setAt s.sessions i ⟨sess', false⟩ }
          else
            { regStore := reg', active := active',
              sessions := setAt s.sessions i ⟨sess', true⟩ }
      else s
    | none => s
  | .wsDisconnect i =>
    match fetch s.sessions i with
    | some rec =>
      if rec.alive then
        { s with active := rec.sess.stopped s.active,
                 sessions := setAt s.sessions i ⟨rec.sess, false⟩ }
      else s
    | none => s

def initState : SysState := ⟨[], [], []⟩

def runEvents (evs : List Event) (s : SysState) : SysState :=
  evs.foldl step s

/-!
Association-list lemmas for the `HashMap` model.
-/

theorem lookupA_removeA {α : Type} (l : List (Uuid × α)) (k k' : Uuid) :
    lookupA (removeA l k) k' = if k' = k then none else lookupA l k' := by
  induction l with
  | nil => simp [removeA, lookupA]
  | cons p rest ih =>
    by_cases hk : k' = k
    · subst hk
      by_cases hpk : p.1 = k' <;> simp [removeA, lookupA, hpk, ih]
    · by_cases hpk : p.1 = k
      · have hpk' : ¬p.1 = k' := by
          rw [hpk]; exact fun h => hk h.symm
        have hkk : ¬k = k' := fun h => hk h.symm
        simp [removeA, lookupA, hpk, hpk', ih, hk, hkk]
      · by_cases hpk' : p.1 = k' <;>
          simp [removeA, lookupA, hpk, hpk', ih, hk]

theorem lookupA_insertA {α : Type} (l : List (Uuid × α)) (k k' : Uuid)
    (v : α) :
    lookupA (insertA l k v) k' = if k' = k then some v else lookupA l k' := by
  by_cases hk : k' = k
  · simp [insertA, lookupA, hk]
  · have hk' : ¬k = k' := fun h => hk h.symm
    simp [insertA, lookupA, hk, hk', lookupA_removeA]

theorem toHex_length (w : Nat) : ∀ n : Nat, (toHex w n).length = w := by
  induction w with
  | zero => intro n; rfl
  | succ w ih => intro n; simp [toHex, ih]

theorem uuidToString_length (u : Uuid) : (uuidToString u).length = 36 := by
  simp [uuidToString, String.length, toHex_length]

theorem fetch_mem {α : Type} :
    ∀ (l : List α) (i : Nat) (a : α), fetch l i = some a → a ∈ l := by
  intro l
  induction l with
  | nil => intro i a h; cases h
  | cons b rest ih =>
    intro i a h
    cases i with
    | zero =>
      cases h
      exact List.mem_cons_self b rest
    | succ j => exact List.mem_cons_of_mem b (ih j a h)

theorem handle_nodes_unchanged (self : ProxyWsSession)
    (reg : RegisteredNodes) (nodes : ActiveNodes) (msg : WsMessage) :
    (self.handle reg nodes msg).2.2.1 = nodes := by
  cases msg <;> simp only [ProxyWsSession.handle] <;>
    (repeat' split) <;> rfl

theorem handle_reg_unchanged (self : ProxyWsSession)
    (reg : RegisteredNodes) (nodes : ActiveNodes) (msg : WsMessage) :
    (self.handle reg nodes msg).2.1 = reg := by
  cases msg <;> simp only [ProxyWsSession.handle] <;>
    (repeat' split) <;> rfl

theorem handle_session_of_authed (self : ProxyWsSession)
    (reg : RegisteredNodes) (nodes : ActiveNodes) (msg : WsMessage)
    (h : self.authed = true) : (self.handle reg nodes msg).1 = self := by
  cases msg <;> simp [ProxyWsSession.handle, h]

theorem started_session_unchanged (self : ProxyWsSession)
    (nodes : ActiveNodes) : (self.started nodes).1 = self := by
  unfold ProxyWsSession.started
  split <;> rfl

theorem started_of_unauthed (self : ProxyWsSession) (nodes : ActiveNodes)
    (h : self.authed = false) :
    self.started nodes =
      (self, nodes, [.text "Authentication required", .close none, .stop]) := by
  simp [ProxyWsSession.started, h]

theorem register_preserves (store : RegisteredNodes) (req : RegisterRequest)
    (id : Uuid) (rec : RegisteredNode) (h : lookupA store id = some rec) :
    lookupA (register req store).2 id = some rec := by
  unfold register
  split
  · exact h
  · next hcon =>
    rw [lookupA_insertA]
    split
    · next heq =>
      rw [← heq, h] at hcon
      simp at hcon
    · exact h

theorem processRegs_preserves :
    ∀ (rs : List RegisterRequest) (store : RegisteredNodes) (id : Uuid)
      (rec : RegisteredNode), lookupA store id = some rec →
      lookupA (processRegs rs store).2 id = some rec := by
  intro rs
  induction rs with
  | nil => intro store id rec h; exact h
  | cons r rest ih =>
    intro store id rec h
    simp only [processRegs]
    exact ih (register r store).2 id rec (register_preserves store r id rec h)

theorem step_preserves_empty (s : SysState) (e : Event)
    (h1 : s.active = []) (h2 : ∀ r ∈ s.sessions, r.alive = false) :
    (step s e).active = [] ∧ ∀ r ∈ (step s e).sessions, r.alive = false := by
  cases e with
  | registerReq r => exact ⟨h1, h2⟩
  | wsConnect t =>
    have hst := started_of_unauthed (wsIndexSession t) s.active rfl
    simp only [step, hst, hasStop, List.any, ProxyWsSession.stopped, h1]
    constructor
    · rfl
    · intro r hr
      rcases List.mem_append.mp hr with hm | hm
      · exact h2 r hm
      · rcases List.mem_singleton.mp hm with rfl
        rfl
  | wsMessage i m =>
    simp only [step]
    cases hf : fetch s.sessions i with
    | none => exact ⟨h1, h2⟩
    | some rec =>
      have ha : rec.alive = false := h2 rec (fetch_mem _ _ _ hf)
      simp only [ha]
      exact ⟨h1, h2⟩
  | wsDisconnect i =>
    simp only [step]
    cases hf : fetch s.sessions i with
    | none => exact ⟨h1, h2⟩
    | some rec =>
      have ha : rec.alive = false := h2 rec (fetch_mem _ _ _ hf)
      simp only [ha]
      exact ⟨h1, h2⟩

theorem runEvents_preserves_empty :
    ∀ (evs : List Event) (s : SysState), s.active = [] →
      (∀ r ∈ s.sessions, r.alive = false) →
      (runEvents evs s).active = [] ∧
        ∀ r ∈ (runEvents evs s).sessions, r.alive = false := by
  intro evs
  induction evs with
  | nil => intro s h1 h2; exact ⟨h1, h2⟩
  | cons e rest ih =>
    intro s h1 h2
    have hstep := step_preserves_empty s e h1 h2
    exact ih (step s e) hstep.1 hstep.2

/-- C1: at a concrete input where id 1 is registered with password "p1" and
an unauthenticated session receives a matching AuthMessage, the handler
copies the device identifier, sets the authed flag, adopts id 1 and emits
"Authenticated", but the Active Registry component is returned unchanged
(still empty): no ActiveNode is upserted, contrary to the claim. The only
insertion into the Active Registry sits in the `started` callback, which
never runs with an authenticated session. -/
theorem c1_auth_success_inserts_nothing :
    ProxyWsSession.handle ⟨0, false, ""⟩ [(1, ⟨1, "p1", "d1"⟩)] []
        (.text (.authMsg 1 "p1")) =
      (⟨1, true, "d1"⟩, [(1, ⟨1, "p1", "d1"⟩)], [],
       [.text "Authenticated"]) := rfl

/-- C3: a session whose lifecycle starts unauthenticated is sent
"Authentication required", the connection is closed and the actor stopped,
the Active Registry is returned unchanged, and no path of the message
handler ever modifies the Active Registry either. -/
theorem c3_unauth_start_rejects_no_registry_entry
    (s : ProxyWsSession) (nodes : ActiveNodes) (h : s.authed = false) :
    s.started nodes =
      (s, nodes, [.text "Authentication required", .close none, .stop]) ∧
    ∀ (s' : ProxyWsSession) (reg : RegisteredNodes) (msg : WsMessage),
      (s'.handle reg nodes msg).2.2.1 = nodes :=
  ⟨started_of_unauthed s nodes h,
   fun s' reg msg => handle_nodes_unchanged s' reg nodes msg⟩

/-- Witness for C3 at the session `ws_index` builds with temporary id 5. -/
theorem c3_unauth_start_rejects_no_registry_entry_witness :
    (wsIndexSession 5).started [] =
      (wsIndexSession 5, [],
       [.text "Authentication required", .close none, .stop]) ∧
    ((wsIndexSession 5).handle [] [] (.text (.authMsg 1 "p"))).2.2.1 = [] :=
  ⟨(c3_unauth_start_rejects_no_registry_entry (wsIndexSession 5) [] rfl).1,
   (c3_unauth_start_rejects_no_registry_entry (wsIndexSession 5) [] rfl).2
     (wsIndexSession 5) [] (.text (.authMsg 1 "p"))⟩

/-- C4: a session that authenticates with identifier `aid` adopts `aid` as
its id, and its `stopped` callback removes exactly the Active Registry
entry keyed `aid`: lookup at `aid` becomes `none` and lookup at every other
key is unchanged. -/
theorem c4_stop_removes_exactly_own_entry
    (s : ProxyWsSession) (reg : RegisteredNodes) (nodes nodes₂ : ActiveNodes)
    (aid : Uuid) (pw : String) (r : RegisteredNode)
    (hA : s.authed = false) (hr : lookupA reg aid = some r)
    (hpw : r.password = pw) :
    ((s.handle reg nodes (.text (.authMsg aid pw))).1).id = aid ∧
    lookupA
      (((s.handle reg nodes (.text (.authMsg aid pw))).1).stopped nodes₂)
      aid = none ∧
    ∀ k : Uuid, k ≠ aid →
      lookupA
        (((s.handle reg nodes (.text (.authMsg aid pw))).1).stopped nodes₂)
        k = lookupA nodes₂ k := by
  have hh : (s.handle reg nodes (.text (.authMsg aid pw))).1 =
      ⟨aid, true, r.mc_id⟩ := by
    simp [ProxyWsSession.handle, hA, parseAuthMessage, hr, hpw]
  rw [hh]
  refine ⟨rfl, ?_, ?_⟩
  · simp [ProxyWsSession.stopped, lookupA_removeA]
  · intro k hk
    simp [ProxyWsSession.stopped, lookupA_removeA, hk]

/-- Witness for C4: authenticate as id 1, then stop against a registry
holding entries for ids 1 and 2; entry 1 is gone, entry 2 untouched. -/
theorem c4_stop_removes_exactly_own_entry_witness :
    ((ProxyWsSession.handle ⟨0, false, ""⟩ [(1, ⟨1, "p1", "d1"⟩)] []
        (.text (.authMsg 1 "p1"))).1).id = 1 ∧
    lookupA
      (((ProxyWsSession.handle ⟨0, false, ""⟩ [(1, ⟨1, "p1", "d1"⟩)] []
          (.text (.authMsg 1 "p1"))).1).stopped
        [(1, ⟨1, "node-a", "unknown", 0, true, "d1"⟩),
         (2, ⟨2, "node-b", "unknown", 0, true, "d2"⟩)]) 1 = none ∧
    lookupA
      (((ProxyWsSession.handle ⟨0, false, ""⟩ [(1, ⟨1, "p1", "d1"⟩)] []
          (.text (.authMsg 1 "p1"))).1).stopped
        [(1, ⟨1, "node-a", "unknown", 0, true, "d1"⟩),
         (2, ⟨2, "node-b", "unknown", 0, true, "d2"⟩)]) 2 =
      some ⟨2, "node-b", "unknown", 0, true, "d2"⟩ := by
  have h := c4_stop_removes_exactly_own_entry ⟨0, false, ""⟩
    [(1, ⟨1, "p1", "d1"⟩)] []
    [(1, ⟨1, "node-a", "unknown", 0, true, "d1"⟩),
     (2, ⟨2, "node-b", "unknown", 0, true, "d2"⟩)]
    1 "p1" ⟨1, "p1", "d1"⟩ rfl rfl rfl
  refine ⟨h.1, h.2.1, ?_⟩
  rw [h.2.2 2 (by decide)]
  rfl

/-- C2: once a registration succeeds for `req.id`, the stored record for
that identifier survives any further sequence of registration calls exactly
as first written, and any later registration of the same identifier is
answered with the conflict response and leaves the store untouched — so no
two successful registrations ever share an identifier. -/
theorem c2_register_first_write_wins
    (store : RegisteredNodes) (req : RegisterRequest) (m : String)
    (store₁ : RegisteredNodes)
    (h : register req store = (.ok m, store₁))
    (rs : List RegisterRequest) (req2 : RegisterRequest)
    (hid : req2.id = req.id) :
    lookupA (processRegs rs store₁).2 req.id =
      some ⟨req.id, req.password, req.mc_id⟩ ∧
    register req2 (processRegs rs store₁).2 =
      (.badRequest "ID already registered", (processRegs rs store₁).2) := by
  unfold register at h
  split at h
  · simp at h
  · next hnone =>
    injection h with h1 h2
    subst h2
    have hl : lookupA (insertA store req.id ⟨req.id, req.password, req.mc_id⟩)
        req.id = some ⟨req.id, req.password, req.mc_id⟩ := by
      rw [lookupA_insertA]
      simp
    have hp := processRegs_preserves rs _ req.id _ hl
    refine ⟨hp, ?_⟩
    have hsome :
        (lookupA (processRegs rs
          (insertA store req.id ⟨req.id, req.password, req.mc_id⟩)).2
          req2.id).isSome = true := by
      rw [hid, hp]
      rfl
    unfold register
    rw [if_pos hsome]

/-- Witness for C2: register id 1, run two more calls (a fresh id and a
duplicate of id 1), then check the stored record and a further conflict. -/
theorem c2_register_first_write_wins_witness :
    lookupA (processRegs [⟨2, "p2", "d2"⟩, ⟨1, "zz", "q"⟩]
        [(1, ⟨1, "p1", "d1"⟩)]).2 1 = some ⟨1, "p1", "d1"⟩ ∧
    register ⟨1, "other", "x"⟩
        (processRegs [⟨2, "p2", "d2"⟩, ⟨1, "zz", "q"⟩]
          [(1, ⟨1, "p1", "d1"⟩)]).2 =
      (.badRequest "ID already registered",
       (processRegs [⟨2, "p2", "d2"⟩, ⟨1, "zz", "q"⟩]
         [(1, ⟨1, "p1", "d1"⟩)]).2) :=
  c2_register_first_write_wins [] ⟨1, "p1", "d1"⟩ "Registered successfully"
    [(1, ⟨1, "p1", "d1"⟩)] rfl [⟨2, "p2", "d2"⟩, ⟨1, "zz", "q"⟩]
    ⟨1, "other", "x"⟩ rfl

/-- C5: at a concrete input, an authenticated session with an ActiveNode
entry still holding ip "unknown", port 0 receives a SetAddress text frame;
the handler returns session, both registries and the Active Registry
entry completely unchanged and emits nothing — the code has no SetAddress
handling at all, contrary to the claim. -/
theorem c5_authed_set_address_is_ignored :
    ProxyWsSession.handle ⟨1, true, "d1"⟩ [(1, ⟨1, "p1", "d1"⟩)]
        [(1, ⟨1, "node-a", "unknown", 0, true, "d1"⟩)]
        (.text (.other "SetAddress ip 10.0.0.5 port 9000")) =
      (⟨1, true, "d1"⟩, [(1, ⟨1, "p1", "d1"⟩)],
       [(1, ⟨1, "node-a", "unknown", 0, true, "d1"⟩)], []) := rfl

/-- C6: an unauthenticated session receiving an AuthMessage whose id is
absent from the Registration Store, or whose password does not match the
stored one, is told "Authentication failed", the connection is closed and
the actor stopped, and the session and both registries are returned
exactly as they were. -/
theorem c6_auth_failure_closes_and_preserves
    (s : ProxyWsSession) (reg : RegisteredNodes) (nodes : ActiveNodes)
    (aid : Uuid) (pw : String) (hA : s.authed = false)
    (h : ∀ r : RegisteredNode, lookupA reg aid = some r → r.password ≠ pw) :
    s.handle reg nodes (.text (.authMsg aid pw)) =
      (s, reg, nodes, [.text "Authentication failed", .close none, .stop]) := by
  cases hl : lookupA reg aid with
  | none => simp [ProxyWsSession.handle, hA, parseAuthMessage, hl]
  | some r =>
    have hne := h r hl
    simp [ProxyWsSession.handle, hA, parseAuthMessage, hl, hne]

/-- Witness for C6: id 1 is registered with password "p1" but the peer
sends "wrong"; the failure notice is emitted and nothing changes. -/
theorem c6_auth_failure_closes_and_preserves_witness :
    ProxyWsSession.handle ⟨0, false, ""⟩ [(1, ⟨1, "p1", "d1"⟩)] []
        (.text (.authMsg 1 "wrong")) =
      (⟨0, false, ""⟩, [(1, ⟨1, "p1", "d1"⟩)], [],
       [.text "Authentication failed", .close none, .stop]) :=
  c6_auth_failure_closes_and_preserves ⟨0, false, ""⟩ [(1, ⟨1, "p1", "d1"⟩)]
    [] 1 "wrong" rfl
    (by
      intro r hr
      simp [lookupA] at hr
      rw [← hr]
      decide)

/-- C7: the authed flag is monotone: once a session is authenticated, no
message-handler step and no `started` lifecycle step ever makes it
unauthenticated again (`stopped` does not touch the session state at all). -/
theorem c7_authed_flag_monotone
    (s : ProxyWsSession) (reg : RegisteredNodes) (nodes nodes₂ : ActiveNodes)
    (msg : WsMessage) (h : s.authed = true) :
    ((s.handle reg nodes msg).1).authed = true ∧
    ((s.started nodes₂).1).authed = true := by
  constructor
  · rw [handle_session_of_authed s reg nodes msg h]
    exact h
  · rw [started_session_unchanged]
    exact h

/-- Witness for C7: an authenticated session stays authenticated across a
further (auth) text frame and across the start callback. -/
theorem c7_authed_flag_monotone_witness :
    ((ProxyWsSession.handle ⟨1, true, "d1"⟩ [] []
        (.text (.authMsg 2 "q"))).1).authed = true ∧
    ((ProxyWsSession.started ⟨1, true, "d1"⟩ []).1).authed = true :=
  c7_authed_flag_monotone ⟨1, true, "d1"⟩ [] [] []
    (.text (.authMsg 2 "q")) rfl

/-- C8 counterexample: an already-authenticated session (id 1) receiving a
further valid AuthMessage produces an empty effect list — in particular no
"already authenticated" (nor any other) notice is emitted, refuting the
claim at this concrete input. -/
theorem c8_counterexample_no_notice :
    (ProxyWsSession.handle ⟨1, true, "d1"⟩ [(1, ⟨1, "p1", "d1"⟩)] []
        (.text (.authMsg 1 "p1"))).2.2.2 = [] ∧
    CtxEffect.text "Already authenticated" ∉
      (ProxyWsSession.handle ⟨1, true, "d1"⟩ [(1, ⟨1, "p1", "d1"⟩)] []
        (.text (.authMsg 1 "p1"))).2.2.2 := by
  exact ⟨rfl, by decide⟩

/-- C8 amended: a further text frame (AuthMessage included) on an already
authenticated session is a no-op on the session state and on both
registries, and the session emits nothing at all — no "already
authenticated" notice exists in the code. -/
theorem c8_second_auth_silent_noop
    (s : ProxyWsSession) (reg : RegisteredNodes) (nodes : ActiveNodes)
    (t : TextPayload) (h : s.authed = true) :
    s.handle reg nodes (.text t) = (s, reg, nodes, []) := by
  simp [ProxyWsSession.handle, h]

/-- Witness for the amended C8 at a concrete authenticated session. -/
theorem c8_second_auth_silent_noop_witness :
    ProxyWsSession.handle ⟨1, true, "d1"⟩ [(1, ⟨1, "p1", "d1"⟩)] []
        (.text (.authMsg 1 "p1")) =
      (⟨1, true, "d1"⟩, [(1, ⟨1, "p1", "d1"⟩)], [], []) :=
  c8_second_auth_silent_noop ⟨1, true, "d1"⟩ [(1, ⟨1, "p1", "d1"⟩)] []
    (.authMsg 1 "p1") rfl

/-- C9: in every execution of the system (any event sequence from the
initial state), the Active Registry is empty, the node-list endpoint
returns the empty list, every session ever created is already stopped, and
the start callback of the session `ws_index` builds always emits
"Authentication required" followed by close and stop, leaving the registry
untouched. -/
theorem c9_active_registry_always_empty (evs : List Event) :
    (runEvents evs initState).active = [] ∧
    nodesList (runEvents evs initState).active = [] ∧
    (∀ r ∈ (runEvents evs initState).sessions, r.alive = false) ∧
    ∀ (tempId : Uuid) (nodes : ActiveNodes),
      (wsIndexSession tempId).started nodes =
        (wsIndexSession tempId, nodes,
         [.text "Authentication required", .close none, .stop]) := by
  have h := runEvents_preserves_empty evs initState rfl (by intro r hr; cases hr)
  exact ⟨h.1, by rw [h.1]; rfl, h.2,
    fun tempId nodes => started_of_unauthed (wsIndexSession tempId) nodes rfl⟩

/-- C10: the textual form of every UUID value has exactly 36 characters, so
the byte slice `[..8]` taken in `started` is always in bounds; the display
name is "node-" followed by those first 8 characters, and equal identifiers
yield equal names. -/
theorem c10_node_name_total_deterministic (u v : Uuid) :
    (uuidToString u).length = 36 ∧
    sliceTo (uuidToString u) 8 = some ⟨(uuidToString u).data.take 8⟩ ∧
    nodeName u = "node-" ++ ⟨(uuidToString u).data.take 8⟩ ∧
    (u = v → nodeName u = nodeName v) := by
  have hlen : 8 ≤ (uuidToString u).length := by
    rw [uuidToString_length]
    omega
  have hsl : sliceTo (uuidToString u) 8 = some ⟨(uuidToString u).data.take 8⟩ := by
    unfold sliceTo
    rw [if_pos hlen]
  refine ⟨uuidToString_length u, hsl, ?_, fun h => by rw [h]⟩
  unfold nodeName
  rw [hsl]
  rfl

/-- Witness for C10 at the UUID value 0. -/
theorem c10_node_name_total_deterministic_witness :
    (uuidToString 0).length = 36 ∧
    sliceTo (uuidToString 0) 8 = some ⟨(uuidToString 0).data.take 8⟩ ∧
    nodeName 0 = "node-" ++ ⟨(uuidToString 0).data.take 8⟩ ∧
    nodeName 0 = nodeName 0 :=
  ⟨(c10_node_name_total_deterministic 0 0).1,
   (c10_node_name_total_deterministic 0 0).2.1,
   (c10_node_name_total_deterministic 0 0).2.2.1,
   (c10_node_name_total_deterministic 0 0).2.2.2 rfl⟩
